import Mathlib

/-!
Shallow embedding of `src/QuantLib/ql/MonteCarlo/pathgenerator.hpp`
(QuantLib `PathGenerator<GSG>`), with the external collaborators it
consumes (`TimeGrid`, `StochasticProcess1D`, the gaussian sequence
generator `GSG`, `BrownianBridge`) modelled from the specification,
since their headers are not part of the sources under study.
`Real`/`Time` are modelled as `ℚ`; the C++ mutable state (the sequence
generator's draw cursor, the Brownian bridge's own generator copy) is
modelled by explicit state passing.
-/

namespace QuantLib

/-- Modelled from the spec: `TimeGrid` (declared in `ql/timegrid.hpp`, not
under src/) is an increasing sequence of N+1 time points `t0 = 0 .. tN`,
exposing `size()`, indexed access and `dt(i) = t[i+1] - t[i]`. -/
structure TimeGrid where
  times : List ℚ
deriving DecidableEq

/-- `TimeGrid::size()`: number of grid points. -/
def TimeGrid.size (g : TimeGrid) : ℕ := g.times.length

/-- `TimeGrid::operator[]`: the i-th time point. -/
def TimeGrid.get (g : TimeGrid) (i : ℕ) : ℚ := g.times.getD i 0

/-- `TimeGrid::dt(i) = t[i+1] - t[i]`. -/
def TimeGrid.dt (g : TimeGrid) (i : ℕ) : ℚ := g.get (i + 1) - g.get i

/-- Modelled from the spec: the `TimeGrid(length, timeSteps)` constructor used
by the first `PathGenerator` constructor builds a uniform grid of `timeSteps`
subintervals over `[0, length]`, hence `timeSteps + 1` points. -/
def TimeGrid.uniform (len : ℚ) (timeSteps : ℕ) : TimeGrid :=
  ⟨(List.range (timeSteps + 1)).map
    (fun i : ℕ => len * (i : ℚ) / (timeSteps : ℚ))⟩

/-- `Sample<T>` with a concrete `List ℚ` payload: a (value, weight) pair.
Used both for the sequence generator's draws and for the returned path
sample (a path is its list of N+1 values). -/
structure Sample where
  value : List ℚ
  weight : ℚ
deriving DecidableEq

/-- Modelled from the spec: the one-dimensional stochastic process capability
(`ql/stochasticprocess.hpp`, not under src/): initial value `x0()`, drift
expectation `expectation(t, x, dt)` and shock application `apply(mean, shock)`. -/
structure StochasticProcess1D where
  x0 : ℚ
  expectation : ℚ → ℚ → ℚ → ℚ
  apply : ℚ → ℚ → ℚ

/-- Modelled from the spec: `StochasticProcess1D::evolve` is declared in
`ql/stochasticprocess.hpp`, which is not under src/. The spec's direct-mode
recurrence states `path[i] = apply(expectation(t, x, dt), shock)` for the
step driven by shock `dw`, so `evolve t x dt dw = apply (expectation t x dt) dw`. -/
def StochasticProcess1D.evolve (p : StochasticProcess1D) (t x dt dw : ℚ) : ℚ :=
  p.apply (p.expectation t x dt) dw

/-- Modelled from the spec: the gaussian sequence generator collaborator
(template parameter `GSG`). It is deterministic: a fixed stream `draws` of
dimension-D variate vectors with weights, and a cursor `state` marking the
next fresh draw. `nextSequence()` returns the draw at the cursor and advances
it; `lastSequence()` replays the most recent fresh draw without advancing. -/
structure GSG where
  dimension : ℕ
  draws : ℕ → Sample
  state : ℕ

/-- `GSG::nextSequence()`: the fresh draw together with the advanced generator. -/
def GSG.nextSequence (g : GSG) : Sample × GSG :=
  (g.draws g.state, { g with state := g.state + 1 })

/-- `GSG::lastSequence()`: the most recent fresh draw (cursor unchanged). -/
def GSG.lastSequence (g : GSG) : Sample :=
  g.draws (g.state - 1)

/-- Modelled from the spec: `BrownianBridge<GSG>`
(`ql/MonteCarlo/brownianbridge.hpp`, not under src/) is consumed through its
contract only: it holds its own copy of the sequence generator (it is
constructed from `generator_` by value) and maps each drawn variate vector to
a vector of time-ordered cumulative Brownian values, weight unchanged; the
transform itself is an abstract function. `next()`/`last()` mirror the
sequence generator's fresh/replay contract. -/
structure BrownianBridge where
  transform : List ℚ → List ℚ
  generator : GSG

/-- `BrownianBridge::next()`: transform of a fresh draw, advancing the
bridge's own generator copy. -/
def BrownianBridge.next (bb : BrownianBridge) : Sample × BrownianBridge :=
  let r := bb.generator.nextSequence
  (⟨bb.transform r.1.value, r.1.weight⟩, { bb with generator := r.2 })

/-- `BrownianBridge::last()`: transform of the most recent draw, state unchanged. -/
def BrownianBridge.last (bb : BrownianBridge) : Sample :=
  ⟨bb.transform bb.generator.lastSequence.value, bb.generator.lastSequence.weight⟩

/-- The error raised by `QL_REQUIRE` at construction, carrying its message. -/
structure ConfigurationError where
  message : String
deriving DecidableEq

/-- The `QL_REQUIRE` message of both constructors (pathgenerator.hpp lines
88-89 and 103-104). -/
def requireMessage (dimension steps : ℕ) : String :=
  "sequence generator dimensionality (" ++ toString dimension ++
    ") != timeSteps (" ++ toString steps ++ ")"

/-- `PathGenerator<GSG>`: the stored state (pathgenerator.hpp lines 62-71).
The reusable sample buffer `next_` is modelled by returning the sample by
value; the buffer's content is a pure function of the rest of the state. -/
structure PathGenerator where
  brownianBridge : Bool
  generator : GSG
  dimension : ℕ
  timeGrid : TimeGrid
  process : StochasticProcess1D
  bb : BrownianBridge

/-- `PathGenerator::size()` (line 59): returns `dimension_`. -/
def PathGenerator.size (pg : PathGenerator) : ℕ := pg.dimension

/-- First constructor (lines 76-90): process, horizon `len`, `timeSteps`,
generator, bridge flag; builds the uniform grid, copies the generator, builds
the bridge from the generator copy, and requires
`dimension_ == timeSteps`. The abstract bridge transform is a parameter since
the bridge algorithm is external. A thrown `QL_REQUIRE` is an `Except.error`:
no usable instance results. -/
def PathGenerator.mkSteps (process : StochasticProcess1D) (len : ℚ)
    (timeSteps : ℕ) (generator : GSG) (brownianBridge : Bool)
    (transform : List ℚ → List ℚ) : Except ConfigurationError PathGenerator :=
  let dimension := generator.dimension
  let timeGrid := TimeGrid.uniform len timeSteps
  if dimension = timeSteps then
    Except.ok
      { brownianBridge := brownianBridge, generator := generator,
        dimension := dimension, timeGrid := timeGrid, process := process,
        bb := ⟨transform, generator⟩ }
  else
    Except.error ⟨requireMessage dimension timeSteps⟩

/-- Second constructor (lines 92-105): explicit `TimeGrid`; requires
`dimension_ == timeGrid_.size() - 1`. -/
def PathGenerator.mkGrid (process : StochasticProcess1D) (timeGrid : TimeGrid)
    (generator : GSG) (brownianBridge : Bool)
    (transform : List ℚ → List ℚ) : Except ConfigurationError PathGenerator :=
  let dimension := generator.dimension
  if dimension = timeGrid.size - 1 then
    Except.ok
      { brownianBridge := brownianBridge, generator := generator,
        dimension := dimension, timeGrid := timeGrid, process := process,
        bb := ⟨transform, generator⟩ }
  else
    Except.error ⟨requireMessage dimension (timeGrid.size - 1)⟩

/-- Value of the path at index `i` when each entry is produced from its
predecessor by `step`: `path[0] = x0`, `path[i] = step i path[i-1]`. -/
def pathVal (step : ℕ → ℚ → ℚ) (x0 : ℚ) : ℕ → ℚ
  | 0 => x0
  | i + 1 => step (i + 1) (pathVal step x0 i)

/-- The path of length `n + 1` written by the generation loops: entry 0 is
`x0` and entry `i` is `step i` of entry `i-1`. -/
def buildPath (step : ℕ → ℚ → ℚ) (x0 : ℚ) (n : ℕ) : List ℚ :=
  (List.range (n + 1)).map (pathVal step x0)

/-- One step of the direct (non-bridge) loop (lines 162-169):
`path[i] = process.evolve(t[i-1], path[i-1], dt[i-1], ±v[i-1])`. -/
def directStep (p : StochasticProcess1D) (g : TimeGrid) (v : List ℚ)
    (antithetic : Bool) (i : ℕ) (x : ℚ) : ℚ :=
  p.evolve (g.get (i - 1)) x (g.dt (i - 1))
    (if antithetic then -(v.getD (i - 1) 0) else v.getD (i - 1) 0)

/-- One step of the bridge loop (lines 134-147): step 1 uses the first
cumulative value `b[0]` directly, step `i ≥ 2` the difference
`b[i-1] - b[i-2]`; the (possibly sign-flipped) diffusion is applied to the
step expectation. -/
def bridgeStep (p : StochasticProcess1D) (g : TimeGrid) (b : List ℚ)
    (antithetic : Bool) (i : ℕ) (x : ℚ) : ℚ :=
  let diffusion :=
    if i = 1 then b.getD 0 0 else b.getD (i - 1) 0 - b.getD (i - 2) 0
  p.apply (p.expectation (g.get (i - 1)) x (g.dt (i - 1)))
    (if antithetic then -diffusion else diffusion)

/-- `PathGenerator::next(bool antithetic)` (lines 119-173): branch on the
bridge flag, obtain the variate vector (fresh draw, or replay of the previous
draw when antithetic), copy its weight into the sample, set
`path.front() = process.x0()` and fill the remaining `timeGrid.size() - 1`
entries by the branch's recurrence. Returns the sample together with the
updated generator state. -/
def PathGenerator.nextBool (pg : PathGenerator) (antithetic : Bool) :
    Sample × PathGenerator :=
  if pg.brownianBridge then
    let r := if antithetic then (pg.bb.last, pg.bb) else pg.bb.next
    (⟨buildPath (bridgeStep pg.process pg.timeGrid r.1.value antithetic)
        pg.process.x0 (pg.timeGrid.size - 1), r.1.weight⟩,
     { pg with bb := r.2 })
  else
    let r := if antithetic then (pg.generator.lastSequence, pg.generator)
             else pg.generator.nextSequence
    (⟨buildPath (directStep pg.process pg.timeGrid r.1.value antithetic)
        pg.process.x0 (pg.timeGrid.size - 1), r.1.weight⟩,
     { pg with generator := r.2 })

/-- `PathGenerator::next()` (lines 107-111): `next(false)`. -/
def PathGenerator.next (pg : PathGenerator) : Sample × PathGenerator :=
  pg.nextBool false

/-- `PathGenerator::antithetic()` (lines 113-117): `next(true)`. -/
def PathGenerator.antithetic (pg : PathGenerator) : Sample × PathGenerator :=
  pg.nextBool true

/-- Per-step diffusions the bridge branch recovers from the cumulative bridge
output `b`: the first is `b[0]`, the i-th (i ≥ 2) is `b[i-1] - b[i-2]`
(lines 136 and 143). -/
def recoveredDiffusion (b : List ℚ) (i : ℕ) : ℚ :=
  if i = 1 then b.getD 0 0 else b.getD (i - 1) 0 - b.getD (i - 2) 0

/-- The list of the `n` per-step diffusions recovered from bridge output `b`. -/
def recoveredDiffusions (b : List ℚ) (n : ℕ) : List ℚ :=
  (List.range n).map (fun j => recoveredDiffusion b (j + 1))

/-- Samples produced by a sequence of calls (`false` = `next()`,
`true` = `antithetic()`), threading the generator state. -/
def PathGenerator.runCalls : PathGenerator → List Bool → List Sample
  | _, [] => []
  | pg, b :: rest =>
    let r := pg.nextBool b
    r.1 :: r.2.runCalls rest

/-! Concrete instances used by the end-to-end claim and as witnesses. -/

/-- The spec's end-to-end test process: driftless additive,
`expectation(t,x,dt) = x`, `apply(mean, shock) = mean + shock`, `x0 = 100`. -/
def procEx : StochasticProcess1D :=
  ⟨100, fun _ x _ => x, fun m s => m + s⟩

/-- The spec's end-to-end sequence generator: dimension 2, every draw
`[0.1, -0.2]` with weight 1, cursor at 0. -/
def genEx : GSG :=
  ⟨2, fun _ => ⟨[1/10, -1/5], 1⟩, 0⟩

/-- The generator the end-to-end construction produces. -/
def pgEx : PathGenerator :=
  { brownianBridge := false, generator := genEx, dimension := 2,
    timeGrid := TimeGrid.uniform 1 2, process := procEx,
    bb := ⟨id, genEx⟩ }

/-- A bridge-mode variant of `pgEx` whose bridge transform is the identity,
so the bridge output of the first draw is `[0.1, -0.2]`. -/
def pgExB : PathGenerator :=
  { brownianBridge := true, generator := genEx, dimension := 2,
    timeGrid := TimeGrid.uniform 1 2, process := procEx,
    bb := ⟨id, genEx⟩ }

/-- The variate vector (with weight) a `next(antithetic)` call obtains:
the bridge's fresh/replayed output in bridge mode, the sequence generator's
fresh/replayed draw otherwise (lines 125-126 and 151-153). -/
def PathGenerator.variates (pg : PathGenerator) (antithetic : Bool) : Sample :=
  if pg.brownianBridge then
    if antithetic then pg.bb.last else (pg.bb.next).1
  else
    if antithetic then pg.generator.lastSequence else (pg.generator.nextSequence).1

/-! Helper lemmas about the embedding. -/

theorem buildPath_length (step : ℕ → ℚ → ℚ) (x0 : ℚ) (n : ℕ) :
    (buildPath step x0 n).length = n + 1 := by
  simp [buildPath]

theorem buildPath_getD (step : ℕ → ℚ → ℚ) (x0 : ℚ) (n i : ℕ) (d : ℚ)
    (h : i ≤ n) : (buildPath step x0 n).getD i d = pathVal step x0 i := by
  have hi : i < n + 1 := Nat.lt_succ_of_le h
  simp [buildPath, List.getD_eq_getElem?_getD, List.getElem?_map,
    List.getElem?_range hi]

theorem uniform_size (len : ℚ) (n : ℕ) :
    (TimeGrid.uniform len n).size = n + 1 := by
  simp [TimeGrid.uniform, TimeGrid.size]

theorem nextBool_sample (pg : PathGenerator) (b : Bool) :
    (pg.nextBool b).1 =
      ⟨buildPath
          (if pg.brownianBridge then
            bridgeStep pg.process pg.timeGrid (pg.variates b).value b
          else
            directStep pg.process pg.timeGrid (pg.variates b).value b)
          pg.process.x0 (pg.timeGrid.size - 1),
        (pg.variates b).weight⟩ := by
  by_cases hb : pg.brownianBridge <;> cases b <;>
    simp [PathGenerator.nextBool, PathGenerator.variates, hb]

theorem nextBool_frame (pg : PathGenerator) (b : Bool) :
    ((pg.nextBool b).2).brownianBridge = pg.brownianBridge ∧
    ((pg.nextBool b).2).dimension = pg.dimension ∧
    ((pg.nextBool b).2).timeGrid = pg.timeGrid ∧
    ((pg.nextBool b).2).process = pg.process := by
  by_cases hb : pg.brownianBridge <;> cases b <;>
    simp [PathGenerator.nextBool, hb]

theorem variates_after_next (pg : PathGenerator) :
    ((pg.nextBool false).2).variates true = pg.variates false := by
  by_cases hb : pg.brownianBridge <;>
    simp [PathGenerator.nextBool, PathGenerator.variates, hb,
      BrownianBridge.next, BrownianBridge.last, GSG.nextSequence,
      GSG.lastSequence]

/-! Claim theorems. -/

/-- C1: for both constructor forms, construction succeeds (produces an
instance) iff `generator.dimension()` equals the step count — the explicit
`timeSteps` in form (a), `timeGrid.size() - 1` in form (b) — and otherwise
fails with a `ConfigurationError` whose message names both values, yielding
no usable instance. -/
theorem construction_dimension_check (p : StochasticProcess1D) (len : ℚ)
    (timeSteps : ℕ) (g : GSG) (br : Bool) (T : List ℚ → List ℚ)
    (tg : TimeGrid) :
    ((∃ pg, PathGenerator.mkSteps p len timeSteps g br T = Except.ok pg) ↔
      g.dimension = timeSteps) ∧
    (PathGenerator.mkSteps p len timeSteps g br T =
        Except.error ⟨requireMessage g.dimension timeSteps⟩ ↔
      g.dimension ≠ timeSteps) ∧
    ((∃ pg, PathGenerator.mkGrid p tg g br T = Except.ok pg) ↔
      g.dimension = tg.size - 1) ∧
    (PathGenerator.mkGrid p tg g br T =
        Except.error ⟨requireMessage g.dimension (tg.size - 1)⟩ ↔
      g.dimension ≠ tg.size - 1) := by
  refine ⟨?_, ?_, ?_, ?_⟩
  · by_cases h : g.dimension = timeSteps <;> simp [PathGenerator.mkSteps, h]
  · by_cases h : g.dimension = timeSteps <;> simp [PathGenerator.mkSteps, h]
  · by_cases h : g.dimension = tg.size - 1 <;> simp [PathGenerator.mkGrid, h]
  · by_cases h : g.dimension = tg.size - 1 <;> simp [PathGenerator.mkGrid, h]

/-- C9: a successfully constructed generator (either form) has
`size() = timeGrid().size() - 1`, and `next()`/`antithetic()` change neither
the stored dimension nor the time grid, so the equality is preserved by every
subsequent call. -/
theorem size_matches_grid_invariant (p p2 : StochasticProcess1D) (len : ℚ)
    (timeSteps : ℕ) (g g2 : GSG) (br br2 : Bool) (T T2 : List ℚ → List ℚ)
    (tg : TimeGrid) (pgA pgB : PathGenerator)
    (hA : PathGenerator.mkSteps p len timeSteps g br T = Except.ok pgA)
    (hB : PathGenerator.mkGrid p2 tg g2 br2 T2 = Except.ok pgB) :
    pgA.size = pgA.timeGrid.size - 1 ∧
    pgB.size = pgB.timeGrid.size - 1 ∧
    (∀ (q : PathGenerator) (b : Bool),
      ((q.nextBool b).2).size = q.size ∧
      ((q.nextBool b).2).timeGrid = q.timeGrid) := by
  refine ⟨?_, ?_, ?_⟩
  · by_cases h : g.dimension = timeSteps
    · simp only [PathGenerator.mkSteps, h, if_true, Except.ok.injEq] at hA
      subst hA
      show timeSteps = (TimeGrid.uniform len timeSteps).size - 1
      rw [uniform_size, Nat.add_sub_cancel]
    · simp [PathGenerator.mkSteps, h] at hA
  · by_cases h : g2.dimension = tg.size - 1
    · simp only [PathGenerator.mkGrid, h, if_true, Except.ok.injEq] at hB
      subst hB
      simp [PathGenerator.size, h]
    · simp [PathGenerator.mkGrid, h] at hB
  · intro q b
    exact ⟨(nextBool_frame q b).2.1, (nextBool_frame q b).2.2.1⟩

/-- Witness for C9: the end-to-end configuration, constructed through both
forms, satisfies the invariant. -/
theorem size_matches_grid_invariant_witness :
    (PathGenerator.mkSteps procEx 1 2 genEx false id = Except.ok pgEx) ∧
    (PathGenerator.mkGrid procEx (TimeGrid.uniform 1 2) genEx false id =
      Except.ok pgEx) ∧
    (pgEx.size = pgEx.timeGrid.size - 1 ∧ pgEx.size = pgEx.timeGrid.size - 1 ∧
      (∀ (q : PathGenerator) (b : Bool),
        ((q.nextBool b).2).size = q.size ∧
        ((q.nextBool b).2).timeGrid = q.timeGrid)) :=
  ⟨rfl, rfl,
    size_matches_grid_invariant procEx procEx 1 2 genEx genEx false false id id
      (TimeGrid.uniform 1 2) pgEx pgEx rfl rfl⟩

/-- C2: in direct (non-bridge) mode, every `next()`/`antithetic()` call
builds the path by the recurrence
`path[i] = apply(expectation(t[i-1], path[i-1], dt[i-1]), sign * v[i-1])`
for `i = 1..N`, where `v` is the obtained variate vector and `sign = -1`
when antithetic, `+1` otherwise. -/
theorem direct_mode_recurrence (pg : PathGenerator) (anti : Bool) (i : ℕ)
    (hbr : pg.brownianBridge = false) (h1 : 1 ≤ i)
    (hn : i ≤ pg.timeGrid.size - 1) :
    (pg.nextBool anti).1.value.getD i 0 =
      pg.process.apply
        (pg.process.expectation (pg.timeGrid.get (i - 1))
          ((pg.nextBool anti).1.value.getD (i - 1) 0)
          (pg.timeGrid.dt (i - 1)))
        ((if anti then -1 else 1) * (pg.variates anti).value.getD (i - 1) 0) := by
  obtain ⟨j, rfl⟩ : ∃ j, i = j + 1 := ⟨i - 1, (Nat.succ_pred_eq_of_pos h1).symm⟩
  rw [nextBool_sample pg anti]
  simp only [hbr, Bool.false_eq_true, if_false, Nat.add_sub_cancel]
  rw [buildPath_getD _ _ _ _ _ hn, buildPath_getD _ _ _ _ _ (Nat.le_of_succ_le hn)]
  cases anti <;>
    simp [pathVal, directStep, StochasticProcess1D.evolve, Nat.add_sub_cancel]

/-- Witness for C2: the end-to-end configuration, first step of a fresh
`next()`. -/
theorem direct_mode_recurrence_witness :
    pgEx.brownianBridge = false ∧ 1 ≤ 1 ∧ 1 ≤ pgEx.timeGrid.size - 1 ∧
    (pgEx.nextBool false).1.value.getD 1 0 =
      pgEx.process.apply
        (pgEx.process.expectation (pgEx.timeGrid.get 0)
          ((pgEx.nextBool false).1.value.getD 0 0) (pgEx.timeGrid.dt 0))
        ((if false then -1 else 1) * (pgEx.variates false).value.getD 0 0) :=
  ⟨rfl, le_refl 1, by norm_num [pgEx, uniform_size],
    direct_mode_recurrence pgEx false 1 rfl (le_refl 1)
      (by norm_num [pgEx, uniform_size])⟩

/-- C3: in bridge mode, step 1 applies the first cumulative bridge value
directly, and each step `i = 2..N` applies the difference
`b[i-1] - b[i-2]`; bridge output `[0.5, 0.5]` over two steps yields the
recovered per-step diffusions `[0.5, 0.0]`. -/
theorem bridge_mode_recurrence (pg : PathGenerator) (anti : Bool) (i : ℕ)
    (hbr : pg.brownianBridge = true) (h2 : 2 ≤ i)
    (hn : i ≤ pg.timeGrid.size - 1) :
    ((pg.nextBool anti).1.value.getD 1 0 =
      pg.process.apply
        (pg.process.expectation (pg.timeGrid.get 0) pg.process.x0
          (pg.timeGrid.dt 0))
        ((if anti then -1 else 1) * (pg.variates anti).value.getD 0 0)) ∧
    ((pg.nextBool anti).1.value.getD i 0 =
      pg.process.apply
        (pg.process.expectation (pg.timeGrid.get (i - 1))
          ((pg.nextBool anti).1.value.getD (i - 1) 0)
          (pg.timeGrid.dt (i - 1)))
        ((if anti then -1 else 1) *
          ((pg.variates anti).value.getD (i - 1) 0 -
            (pg.variates anti).value.getD (i - 2) 0))) ∧
    recoveredDiffusions [1/2, 1/2] 2 = [1/2, 0] := by
  have hn1 : 1 ≤ pg.timeGrid.size - 1 := le_trans (by omega) hn
  refine ⟨?_, ?_, ?_⟩
  · rw [nextBool_sample pg anti]
    simp only [hbr, if_true]
    rw [buildPath_getD _ _ _ _ _ hn1]
    cases anti <;> simp [pathVal, bridgeStep]
  · obtain ⟨j, rfl⟩ : ∃ j, i = j + 2 := ⟨i - 2, by omega⟩
    rw [nextBool_sample pg anti]
    simp only [hbr, if_true]
    have e1 : j + 2 - 1 = j + 1 := by omega
    have e2 : j + 2 - 2 = j := by omega
    rw [e1, e2]
    have hj1 : j + 1 ≤ pg.timeGrid.size - 1 := by omega
    rw [buildPath_getD _ _ _ _ _ hn, buildPath_getD _ _ _ _ _ hj1]
    have hne : ¬(j + 2 = 1) := by omega
    cases anti <;> simp [pathVal, bridgeStep, hne, e1, e2]
  · norm_num [recoveredDiffusions, recoveredDiffusion, List.range_succ]

/-- Witness for C3: the bridge-mode configuration over the two-step grid,
fresh call, last step. -/
theorem bridge_mode_recurrence_witness :
    pgExB.brownianBridge = true ∧ 2 ≤ 2 ∧ 2 ≤ pgExB.timeGrid.size - 1 ∧
    (((pgExB.nextBool false).1.value.getD 1 0 =
      pgExB.process.apply
        (pgExB.process.expectation (pgExB.timeGrid.get 0) pgExB.process.x0
          (pgExB.timeGrid.dt 0))
        ((if false then -1 else 1) * (pgExB.variates false).value.getD 0 0)) ∧
    ((pgExB.nextBool false).1.value.getD 2 0 =
      pgExB.process.apply
        (pgExB.process.expectation (pgExB.timeGrid.get 1)
          ((pgExB.nextBool false).1.value.getD 1 0) (pgExB.timeGrid.dt 1))
        ((if false then -1 else 1) *
          ((pgExB.variates false).value.getD 1 0 -
            (pgExB.variates false).value.getD 0 0))) ∧
    recoveredDiffusions [1/2, 1/2] 2 = [1/2, 0]) :=
  ⟨rfl, le_refl 2, by norm_num [pgExB, uniform_size],
    bridge_mode_recurrence pgExB false 2 rfl (le_refl 2)
      (by norm_num [pgExB, uniform_size])⟩

/-- C4: every sample produced along any sequence of `next()`/`antithetic()`
calls (not only the first) has exactly `N + 1` path values, with
`N = timeGrid.size() - 1`, and its value 0 equals `process.x0()`. -/
theorem path_length_and_front (pg : PathGenerator) (calls : List Bool)
    (s : Sample) (hs : s ∈ pg.runCalls calls) :
    s.value.length = (pg.timeGrid.size - 1) + 1 ∧
    s.value.getD 0 0 = pg.process.x0 := by
  induction calls generalizing pg with
  | nil => simp [PathGenerator.runCalls] at hs
  | cons b rest ih =>
    simp only [PathGenerator.runCalls, List.mem_cons] at hs
    rcases hs with h | h
    · subst h
      rw [nextBool_sample pg b]
      refine ⟨buildPath_length _ _ _, ?_⟩
      rw [buildPath_getD _ _ _ _ _ (Nat.zero_le _)]
      rfl
    · have := ih ((pg.nextBool b).2) h
      rwa [(nextBool_frame pg b).2.2.1, (nextBool_frame pg b).2.2.2] at this

/-- Witness for C4: the first sample of the end-to-end configuration. -/
theorem path_length_and_front_witness :
    (pgEx.next.1 ∈ pgEx.runCalls [false]) ∧
    (pgEx.next.1.value.length = (pgEx.timeGrid.size - 1) + 1 ∧
      pgEx.next.1.value.getD 0 0 = pgEx.process.x0) :=
  ⟨List.Mem.head _,
    path_length_and_front pgEx [false] pgEx.next.1 (List.Mem.head _)⟩

/-- C5: end-to-end — the two-step uniform grid over `[0, 1]` has `dt = 1/2`
each; with the driftless additive process (`x0 = 100`), the generator
returning `[0.1, -0.2]` with weight 1, and the bridge disabled, construction
succeeds, `next()` returns path `[100, 100.1, 99.9]` with weight 1, and an
immediately following `antithetic()` returns path `[100, 99.9, 100.1]`. -/
theorem end_to_end_example :
    TimeGrid.uniform 1 2 = ⟨[0, 1/2, 1]⟩ ∧
    (TimeGrid.uniform 1 2).dt 0 = 1/2 ∧
    (TimeGrid.uniform 1 2).dt 1 = 1/2 ∧
    PathGenerator.mkSteps procEx 1 2 genEx false id = Except.ok pgEx ∧
    pgEx.next.1 = ⟨[100, 1001/10, 999/10], 1⟩ ∧
    pgEx.next.1.weight = 1 ∧
    (pgEx.next.2.antithetic).1 = ⟨[100, 999/10, 1001/10], 1⟩ := by
  refine ⟨?_, ?_, ?_, rfl, ?_, ?_, ?_⟩
  · norm_num [TimeGrid.uniform, List.range_succ]
  · norm_num [TimeGrid.dt, TimeGrid.get, TimeGrid.uniform, List.range_succ]
  · norm_num [TimeGrid.dt, TimeGrid.get, TimeGrid.uniform, List.range_succ]
  · norm_num [PathGenerator.next, PathGenerator.nextBool, pgEx, procEx, genEx,
      GSG.nextSequence, GSG.lastSequence, buildPath, pathVal, directStep,
      StochasticProcess1D.evolve, TimeGrid.uniform, TimeGrid.get, TimeGrid.dt,
      TimeGrid.size, List.range_succ]
  · norm_num [PathGenerator.next, PathGenerator.nextBool, pgEx, procEx, genEx,
      GSG.nextSequence, GSG.lastSequence, buildPath, pathVal, directStep,
      StochasticProcess1D.evolve, TimeGrid.uniform, TimeGrid.get, TimeGrid.dt,
      TimeGrid.size, List.range_succ]
  · norm_num [PathGenerator.next, PathGenerator.antithetic,
      PathGenerator.nextBool, pgEx, procEx, genEx, GSG.nextSequence,
      GSG.lastSequence, buildPath, pathVal, directStep,
      StochasticProcess1D.evolve, TimeGrid.uniform, TimeGrid.get, TimeGrid.dt,
      TimeGrid.size, List.range_succ]

/-- C6: for an additive process (`apply(mean, shock) = mean + shock`), an
`antithetic()` call reusing the same underlying draw as the preceding
`next()` mirrors the direct path around each step expectation:
`path_anti[i] - expectation_i = -(path_direct[i] - expectation_i)`, in both
direct and bridge modes (after differencing). -/
theorem antithetic_mirror (pg : PathGenerator) (i : ℕ)
    (happly : pg.process.apply = fun m s => m + s)
    (h1 : 1 ≤ i) (hn : i ≤ pg.timeGrid.size - 1) :
    (((pg.nextBool false).2).nextBool true).1.value.getD i 0 -
      pg.process.expectation (pg.timeGrid.get (i - 1))
        ((((pg.nextBool false).2).nextBool true).1.value.getD (i - 1) 0)
        (pg.timeGrid.dt (i - 1)) =
    -((pg.nextBool false).1.value.getD i 0 -
      pg.process.expectation (pg.timeGrid.get (i - 1))
        ((pg.nextBool false).1.value.getD (i - 1) 0)
        (pg.timeGrid.dt (i - 1))) := by
  obtain ⟨j, rfl⟩ : ∃ j, i = j + 1 := ⟨i - 1, (Nat.succ_pred_eq_of_pos h1).symm⟩
  have hfr := nextBool_frame pg false
  have hvar := variates_after_next pg
  rw [nextBool_sample ((pg.nextBool false).2) true, nextBool_sample pg false,
    hvar, hfr.1, hfr.2.2.1, hfr.2.2.2]
  simp only [Nat.add_sub_cancel]
  cases hB : pg.brownianBridge
  · simp only [hB, Bool.false_eq_true, if_false]
    rw [buildPath_getD _ _ _ _ _ hn,
      buildPath_getD _ _ _ _ _ (Nat.le_of_succ_le hn),
      buildPath_getD _ _ _ _ _ hn,
      buildPath_getD _ _ _ _ _ (Nat.le_of_succ_le hn)]
    simp [pathVal, directStep, StochasticProcess1D.evolve, happly,
      Nat.add_sub_cancel, add_sub_cancel_left]
  · simp only [hB, if_true]
    rw [buildPath_getD _ _ _ _ _ hn,
      buildPath_getD _ _ _ _ _ (Nat.le_of_succ_le hn),
      buildPath_getD _ _ _ _ _ hn,
      buildPath_getD _ _ _ _ _ (Nat.le_of_succ_le hn)]
    simp [pathVal, bridgeStep, happly, Nat.add_sub_cancel, add_sub_cancel_left]

/-- Witness for C6: the end-to-end configuration, step 1. -/
theorem antithetic_mirror_witness :
    (pgEx.process.apply = fun m s => m + s) ∧ 1 ≤ 1 ∧
    1 ≤ pgEx.timeGrid.size - 1 ∧
    ((((pgEx.nextBool false).2).nextBool true).1.value.getD 1 0 -
      pgEx.process.expectation (pgEx.timeGrid.get 0)
        ((((pgEx.nextBool false).2).nextBool true).1.value.getD 0 0)
        (pgEx.timeGrid.dt 0) =
    -((pgEx.nextBool false).1.value.getD 1 0 -
      pgEx.process.expectation (pgEx.timeGrid.get 0)
        ((pgEx.nextBool false).1.value.getD 0 0) (pgEx.timeGrid.dt 0))) :=
  ⟨rfl, le_refl 1, by norm_num [pgEx, uniform_size],
    antithetic_mirror pgEx 1 rfl (le_refl 1)
      (by norm_num [pgEx, uniform_size])⟩

/-- C7: the returned sample's weight equals the weight carried by the
obtained variate vector, unchanged, in both modes; in particular, a fresh
draw's weight is the one the underlying generator reports for the draw at
its cursor (passed through the bridge unchanged in bridge mode). -/
theorem weight_passthrough (pg : PathGenerator) (anti : Bool) :
    ((pg.nextBool anti).1.weight = (pg.variates anti).weight) ∧
    ((pg.nextBool false).1.weight =
      (if pg.brownianBridge then pg.bb.generator.draws pg.bb.generator.state
       else pg.generator.draws pg.generator.state).weight) := by
  constructor
  · rw [nextBool_sample pg anti]
  · cases hB : pg.brownianBridge <;>
      simp [PathGenerator.nextBool, hB, BrownianBridge.next, GSG.nextSequence]

/-- C8: generation is deterministic — two independently, freshly constructed
generators with identical configuration (same process, grid or step count,
bridge flag, and the same deterministic sequence generator state) produce
identical first-path output (value sequence and weight) from their first
`next()` call; stated for both constructor forms. -/
theorem deterministic_first_path (p : StochasticProcess1D) (len : ℚ)
    (timeSteps : ℕ) (g : GSG) (br : Bool) (T : List ℚ → List ℚ)
    (tg : TimeGrid) (pg1 pg2 pg3 pg4 : PathGenerator)
    (h1 : PathGenerator.mkSteps p len timeSteps g br T = Except.ok pg1)
    (h2 : PathGenerator.mkSteps p len timeSteps g br T = Except.ok pg2)
    (h3 : PathGenerator.mkGrid p tg g br T = Except.ok pg3)
    (h4 : PathGenerator.mkGrid p tg g br T = Except.ok pg4) :
    pg1.next.1 = pg2.next.1 ∧ pg3.next.1 = pg4.next.1 := by
  rw [h1, Except.ok.injEq] at h2
  rw [h3, Except.ok.injEq] at h4
  subst h2
  subst h4
  exact ⟨rfl, rfl⟩

/-- Witness for C8: the end-to-end configuration through both forms. -/
theorem deterministic_first_path_witness :
    (PathGenerator.mkSteps procEx 1 2 genEx false id = Except.ok pgEx) ∧
    (PathGenerator.mkGrid procEx (TimeGrid.uniform 1 2) genEx false id =
      Except.ok pgEx) ∧
    (pgEx.next.1 = pgEx.next.1 ∧ pgEx.next.1 = pgEx.next.1) :=
  ⟨rfl, rfl,
    deterministic_first_path procEx 1 2 genEx false id (TimeGrid.uniform 1 2)
      pgEx pgEx pgEx pgEx rfl rfl rfl rfl⟩

/-- C10: both constructors store the caller's generator by value as the
instance's own copy (and the bridge's own copy), and each
`next()`/`antithetic()` call reads and advances only the internal state: its
successor differs from the previous state at most in the internal generator
copy (direct mode) or the bridge's internal copy (bridge mode) — the
caller's generator value is untouched after construction. -/
theorem internal_generator_copy (p p2 : StochasticProcess1D) (len : ℚ)
    (timeSteps : ℕ) (g g2 : GSG) (br br2 : Bool) (T T2 : List ℚ → List ℚ)
    (tg : TimeGrid) (pgA pgB : PathGenerator)
    (hA : PathGenerator.mkSteps p len timeSteps g br T = Except.ok pgA)
    (hB : PathGenerator.mkGrid p2 tg g2 br2 T2 = Except.ok pgB) :
    (pgA.generator = g ∧ pgA.bb.generator = g) ∧
    (pgB.generator = g2 ∧ pgB.bb.generator = g2) ∧
    (∀ (q : PathGenerator) (b : Bool),
      (q.nextBool b).2 =
        if q.brownianBridge then
          { q with bb := if b then q.bb else (q.bb.next).2 }
        else
          { q with generator :=
              if b then q.generator else (q.generator.nextSequence).2 }) := by
  refine ⟨?_, ?_, ?_⟩
  · by_cases h : g.dimension = timeSteps
    · simp only [PathGenerator.mkSteps, h, if_true, Except.ok.injEq] at hA
      subst hA
      exact ⟨rfl, rfl⟩
    · simp [PathGenerator.mkSteps, h] at hA
  · by_cases h : g2.dimension = tg.size - 1
    · simp only [PathGenerator.mkGrid, h, if_true, Except.ok.injEq] at hB
      subst hB
      exact ⟨rfl, rfl⟩
    · simp [PathGenerator.mkGrid, h] at hB
  · intro q b
    cases hB2 : q.brownianBridge <;> cases b <;>
      simp [PathGenerator.nextBool, hB2]

/-- Witness for C10: the end-to-end configuration through both forms. -/
theorem internal_generator_copy_witness :
    (PathGenerator.mkSteps procEx 1 2 genEx false id = Except.ok pgEx) ∧
    (PathGenerator.mkGrid procEx (TimeGrid.uniform 1 2) genEx false id =
      Except.ok pgEx) ∧
    ((pgEx.generator = genEx ∧ pgEx.bb.generator = genEx) ∧
     (pgEx.generator = genEx ∧ pgEx.bb.generator = genEx) ∧
     (∀ (q : PathGenerator) (b : Bool),
       (q.nextBool b).2 =
         if q.brownianBridge then
           { q with bb := if b then q.bb else (q.bb.next).2 }
         else
           { q with generator :=
               if b then q.generator else (q.generator.nextSequence).2 })) :=
  ⟨rfl, rfl,
    internal_generator_copy procEx procEx 1 2 genEx genEx false false id id
      (TimeGrid.uniform 1 2) pgEx pgEx rfl rfl⟩

end QuantLib
